import Mathlib

/-!
Verification of the OCR-wrapper pipeline of this repository (`src/main.py`)
against its natural-language specification.

The Python source is shallowly embedded: pure string manipulation becomes
Lean functions on `String`/`List Char`, subprocess interaction becomes
explicit state passing over small data types describing the observable
behaviour of the spawned process, and Python exceptions become `Except`
values.  Standard-library calls (`shlex.split`, `glob`, `os.remove`,
`subprocess`) are modelled by explicit parameters or small oracle
functions; the repository's own logic is translated line by line.

The malicious dropper portion of the repository is out of scope, as the
specification states.
-/

/-- Equality of embedded Python outcomes is decidable (used to evaluate
the witnesses on concrete inputs). -/
instance {ε α : Type} [DecidableEq ε] [DecidableEq α] :
    DecidableEq (Except ε α) := fun a b =>
  match a, b with
  | Except.ok x, Except.ok y =>
    if h : x = y then isTrue (by rw [h]) else isFalse (by simp [h])
  | Except.error x, Except.error y =>
    if h : x = y then isTrue (by rw [h]) else isFalse (by simp [h])
  | Except.ok _, Except.error _ => isFalse (by simp)
  | Except.error _, Except.ok _ => isFalse (by simp)

/-! ## Python string primitives used by the source -/

/-- The six characters Python's `str.strip()` / `str.split()` treat as
whitespace: space, tab, newline, carriage return, vertical tab, form feed. -/
def isPySpace (c : Char) : Bool :=
  c.toNat = 32 || c.toNat = 9 || c.toNat = 10 || c.toNat = 13 ||
  c.toNat = 11 || c.toNat = 12

def isDigitChar (c : Char) : Bool :=
  48 ≤ c.toNat && c.toNat ≤ 57

/-- Numeric value of a list of ASCII digits (most significant first). -/
def digitsVal (l : List Char) : Nat :=
  l.foldl (fun a c => 10 * a + (c.toNat - 48)) 0

/-- Python `str.strip()` on a character list. -/
def pyStripList (l : List Char) : List Char :=
  ((l.dropWhile isPySpace).reverse.dropWhile isPySpace).reverse

/-- Python `str.strip()`. -/
def pyStripStr (s : String) : String :=
  String.mk (pyStripList s.toList)

/-- Worker for `pySplitlines`: splits on `\n`, `\r` and `\r\n`,
accumulating the current line in reverse. -/
def splitlinesAux : List Char → List Char → List (List Char)
  | [], acc => if acc.isEmpty then [] else [acc.reverse]
  | '\r' :: '\n' :: rest, acc => acc.reverse :: splitlinesAux rest []
  | '\r' :: rest, acc => acc.reverse :: splitlinesAux rest []
  | '\n' :: rest, acc => acc.reverse :: splitlinesAux rest []
  | c :: rest, acc => splitlinesAux rest (c :: acc)

/-- Python `str.splitlines()` restricted to the ASCII line boundaries
`\n`, `\r`, `\r\n` (the Unicode-only boundaries are not modelled). -/
def pySplitlines (s : String) : List String :=
  (splitlinesAux s.toList []).map String.mk

/-- Worker for `pySplitWs`. -/
def splitWsAux : List Char → List Char → List (List Char)
  | [], acc => if acc.isEmpty then [] else [acc.reverse]
  | c :: rest, acc =>
    if isPySpace c then
      if acc.isEmpty then splitWsAux rest []
      else acc.reverse :: splitWsAux rest []
    else splitWsAux rest (c :: acc)

/-- Python `str.split()` with no argument: split on runs of whitespace,
producing no empty tokens. -/
def pySplitWs (s : String) : List String :=
  (splitWsAux s.toList []).map String.mk

/-- Whether `sep` is a prefix of the second list; if so, returns the
remainder. -/
def stripSepFront : List Char → List Char → Option (List Char)
  | [], l => some l
  | _ :: _, [] => none
  | s :: ss, c :: cs => if c == s then stripSepFront ss cs else none

/-- Worker for `pySplitOn`: scans for the (nonempty) separator `sep`,
splitting at every leftmost, non-overlapping occurrence.  The scan
consumes at least one character per step, so the fuel — initialised to
the input length — is never exhausted; the fuel only makes the
recursion structural. -/
def pySplitOnGo (sep : List Char) : Nat → List Char → List Char → List (List Char)
  | 0, l, acc => [acc.reverse ++ l]
  | fuel + 1, l, acc =>
    match l with
    | [] => [acc.reverse]
    | c :: rest =>
      match stripSepFront sep (c :: rest) with
      | some rem => acc.reverse :: pySplitOnGo sep fuel rem []
      | none => pySplitOnGo sep fuel rest (c :: acc)

/-- Python `str.split(sep)` with an explicit separator: splits on every
occurrence and keeps empty fields.  Python raises `ValueError` on an
empty separator; the claims only use nonempty delimiters, and that case
is settled under a nonempty-delimiter hypothesis. -/
def pySplitOn (s sep : String) : List String :=
  match sep.toList with
  | [] => [s]
  | s0 :: srest =>
    (pySplitOnGo (s0 :: srest) (s.toList.length + 1) s.toList []).map String.mk

/-! ## Error taxonomy of the process runner (`src/main.py`)

`TessErr.notFound` embeds `TesseractNotFoundError`, `TessErr.osError e`
an `OSError` with errno `e` propagating unchanged, `TessErr.tessError`
a `TesseractError(status, message)`, and `TessErr.timeout` the
`RuntimeError('Tesseract process timeout')` raised by `timeout_manager`. -/

inductive TessErr where
  | notFound : TessErr
  | osError (errno : Nat) : TessErr
  | tessError (status : Int) (message : String) : TessErr
  | timeout : TessErr
deriving DecidableEq, Repr

/-- `errno.ENOENT` on POSIX systems. -/
def ENOENT : Nat := 2

/-- `get_errors` from `src/main.py` line 98: joins the stderr lines with
single spaces and strips surrounding whitespace.  The `bytes.decode`
step is modelled as the identity on abstract text (`DEFAULT_ENCODING` is
referenced but not defined under `src/`). -/
def get_errors (error_string : String) : String :=
  pyStripStr (String.intercalate " " (pySplitlines error_string))

/-- Observable behaviour of a spawned tesseract process: the time (in
seconds) at which it exits, its exit code and its stderr output.  A
process that never exits is not modelled (the claims only concern
processes that either finish or outlive a positive timeout). -/
structure ProcBehavior where
  exitTime : Nat
  exitCode : Int
  stderrText : String
deriving DecidableEq, Repr

/-- State of the `subprocess.Popen` handle as mutated by the source:
`returncode` is `none` while the process is considered running. -/
structure PState where
  returncode : Option Int := none
  terminated : Bool := false
  waited : Bool := false
  killed : Bool := false
  streamsClosed : Bool := false
deriving DecidableEq, Repr

/-- `kill` from `src/main.py` line 66: `terminate()`, then `wait(1)`
(whose `TimeoutExpired` is swallowed; the python2 fallback sleeps
instead), and in the `finally` block `kill()` and
`returncode = code`. -/
def kill (p : PState) (code : Int) : PState :=
  let p := { p with terminated := true }
  let p := { p with waited := true }
  { p with killed := true, returncode := some code }

/-- `timeout_manager` from `src/main.py` line 81, embedded as the scoped
execution it performs around the `with` body in `run_tesseract` (the
generator is used through the context-manager protocol;
`contextlib.contextmanager` is imported by the source).  With
`seconds = 0` it waits for the process without a deadline; with a
positive deadline it either yields the stderr text (process exited in
time) or kills the process with sentinel code `-1` and raises the
timeout error.  The `finally` block closes the three standard
streams on every path. -/
def timeout_manager (b : ProcBehavior) (seconds : Nat)
    (body : String → PState → Except TessErr Unit × PState) :
    Except TessErr Unit × PState :=
  let p0 : PState := {}
  let r :=
    if seconds = 0 then
      body b.stderrText { p0 with returncode := some b.exitCode }
    else if b.exitTime ≤ seconds then
      body b.stderrText { p0 with returncode := some b.exitCode }
    else
      (Except.error TessErr.timeout, kill p0 (-1))
  (r.1, { r.2 with streamsClosed := true })

/-- The spawn/wait/report portion of `run_tesseract` (`src/main.py`
lines 200-210).  The `Popen` call is modelled by its outcome: either an
`OSError` errno or the behaviour of the spawned process.  On a spawn
error the source re-raises unless the errno is `ENOENT`, in which case
it raises `TesseractNotFoundError`; otherwise it runs the process under
`timeout_manager` and raises `TesseractError` on a truthy
(nonzero) returncode. -/
def run_tesseract_outcome (spawn : Except Nat ProcBehavior)
    (timeout : Nat) : Except TessErr Unit × Option PState :=
  match spawn with
  | Except.error errno =>
    if errno ≠ ENOENT then (Except.error (TessErr.osError errno), none)
    else (Except.error TessErr.notFound, none)
  | Except.ok b =>
    let r := timeout_manager b timeout (fun err p =>
      match p.returncode with
      | some rc =>
        if rc ≠ 0 then
          (Except.error (TessErr.tessError rc (get_errors err)), p)
        else (Except.ok (), p)
      | none => (Except.ok (), p))
    (r.1, some r.2)

/-! ## Command builder (`run_tesseract`, `src/main.py` lines 181-198) -/

/-- The global engine binary name (`src/main.py` line 29). -/
def tesseract_cmd : String := "tesseract"

/-- The argument-vector construction of `run_tesseract`.  `shlexSplit`
abstracts the standard-library tokenizer `shlex.split(config, posix)`;
`isWindows` abstracts `sys.platform == 'win32'`.  The extension tokens
are appended by the source's `for` loop, skipping the fixed set
`{box, osd, tsv, xml}`. -/
def build_cmd_args (shlexSplit : String → Bool → List String)
    (isWindows : Bool) (input_filename output_filename_base extension : String)
    (lang : Option String) (config : String) (nice : Int) : List String :=
  let not_windows := !isWindows
  let cmd_args : List String := []
  let cmd_args :=
    if not_windows && !(nice == 0) then cmd_args ++ ["nice", "-n", toString nice]
    else cmd_args
  let cmd_args := cmd_args ++ [tesseract_cmd, input_filename, output_filename_base]
  let cmd_args :=
    match lang with
    | some l => cmd_args ++ ["-l", l]
    | none => cmd_args
  let cmd_args :=
    if config == "" then cmd_args
    else cmd_args ++ shlexSplit config not_windows
  (pySplitWs extension).foldl
    (fun acc e => if ["box", "osd", "tsv", "xml"].contains e then acc else acc ++ [e])
    cmd_args

/-! ## Python numeric coercion `int(float(s))` used by `file_to_dict`

`file_to_dict` converts every cell outside the string column with
`int(float(row[i]))` and only catches `ValueError`.  `float` is a
standard-library function; it is modelled here on its documented
grammar: optional surrounding whitespace, optional sign, then an
`inf`/`infinity`/`nan` literal (case insensitive) or a decimal literal
`digits [. digits] [e [sign] digits]`.  Finite values are kept as exact
rationals (the rounding of the IEEE double, digit-group underscores and
the overflow of huge finite literals to infinity are not modelled);
`int` truncates toward zero, raises `ValueError` on `nan` and raises
`OverflowError` on an infinity. -/

inductive PyFloat where
  | finite (q : Rat) : PyFloat
  | inf (neg : Bool) : PyFloat
  | nan : PyFloat
deriving DecidableEq, Repr

/-- Lower-case an ASCII letter. -/
def pyAsciiLower (c : Char) : Char :=
  if 65 ≤ c.toNat && c.toNat ≤ 90 then Char.ofNat (c.toNat + 32) else c

/-- Exact value of the decimal literal `mant * 10 ^ e`. -/
def decValue (mant : Nat) (e : Int) : Rat :=
  if 0 ≤ e then mkRat (mant * 10 ^ e.toNat) 1
  else mkRat mant (10 ^ (-e).toNat)

/-- Parse the digits-dot-digits-exponent part of a float literal
(sign already removed), consuming the whole input. -/
def parseDecimal (l : List Char) : Option Rat :=
  let ip := l.takeWhile isDigitChar
  let rest := l.drop ip.length
  let fp :=
    match rest with
    | '.' :: r => r.takeWhile isDigitChar
    | _ => []
  let rest :=
    match rest with
    | '.' :: r => r.drop fp.length
    | _ => rest
  if (ip ++ fp).isEmpty then none
  else
    match rest with
    | [] => some (decValue (digitsVal (ip ++ fp)) (-(fp.length : Int)))
    | 'e' :: r =>
      let (eneg, r) :=
        match r with
        | '-' :: r2 => (true, r2)
        | '+' :: r2 => (false, r2)
        | _ => (false, r)
      let ed := r.takeWhile isDigitChar
      if ed.isEmpty || !(r.drop ed.length).isEmpty then none
      else
        let ex : Int := if eneg then -(digitsVal ed : Int) else (digitsVal ed : Int)
        some (decValue (digitsVal (ip ++ fp)) (ex - (fp.length : Int)))
    | _ => none

/-- Python `float(s)`: `none` means `ValueError`. -/
def pyFloatOfStr (s : String) : Option PyFloat :=
  let l := (pyStripList s.toList).map pyAsciiLower
  let neg :=
    match l with
    | '-' :: _ => true
    | _ => false
  let l :=
    match l with
    | '-' :: rest => rest
    | '+' :: rest => rest
    | _ => l
  if l = "inf".toList || l = "infinity".toList then some (PyFloat.inf neg)
  else if l = "nan".toList then some PyFloat.nan
  else
    match parseDecimal l with
    | some q => some (PyFloat.finite (if neg then -q else q))
    | none => none

/-- Truncation toward zero of an exact rational, as Python `int(float)`
does for finite values. -/
def pytrunc (q : Rat) : Int :=
  Int.tdiv q.num (q.den : Int)

inductive PyNumErr where
  | valueErr : PyNumErr
  | overflowErr : PyNumErr
deriving DecidableEq, Repr

/-- Python `int(float(s))` with its two failure modes: `ValueError`
(unparseable text or `nan`) and `OverflowError` (an infinity). -/
def pyIntFloat (s : String) : Except PyNumErr Int :=
  match pyFloatOfStr s with
  | none => Except.error PyNumErr.valueErr
  | some PyFloat.nan => Except.error PyNumErr.valueErr
  | some (PyFloat.inf _) => Except.error PyNumErr.overflowErr
  | some (PyFloat.finite q) => Except.ok (pytrunc q)

/-! ## Delimited-table construction (`file_to_dict`, `src/main.py` lines 281-313) -/

/-- Uncaught Python exceptions surfacing from the structured table and
OSD parsing code: the `OverflowError` escaping `int(float(...))` and
the `KeyError` escaping `OSD_KEYS[kv[0]]`. -/
inductive PyExn where
  | overflowError : PyExn
  | keyError : PyExn
deriving DecidableEq, Repr

/-- A cell value stored by `file_to_dict`: an integer when the
coercion succeeds, the original text otherwise. -/
inductive Cell where
  | int (n : Int) : Cell
  | str (s : String) : Cell
deriving DecidableEq, Repr

/-- Python `dict` assignment `d[k] = v` on an insertion-ordered
association list: overwrites in place if the key exists, appends
otherwise. -/
def dictSet {α : Type} (d : List (String × α)) (k : String) (v : α) :
    List (String × α) :=
  if d.any (fun p => p.1 == k) then
    d.map (fun p => if p.1 == k then (k, v) else p)
  else d ++ [(k, v)]

/-- The row matrix of `file_to_dict`:
`[row.split(cell_delimiter) for row in tsv.strip().split('\n')]`. -/
def parsedRows (tsv cell_delimiter : String) : List (List String) :=
  (pySplitOn (pyStripStr tsv) "\n").map (fun r => pySplitOn r cell_delimiter)

/-- The last-row fix of `file_to_dict` lines 289-292: if the final data
row has fewer cells than the header, append one empty cell to it. -/
def padLastRow (len : Nat) : List (List String) → List (List String)
  | [] => []
  | [r] => if r.length < len then [r ++ [""]] else [r]
  | r :: rest => r :: padLastRow len rest

/-- Resolution of the string-column index (`file_to_dict` lines
294-295): a negative index has the header length added once. -/
def strColAdjust (str_col_idx : Int) (len : Nat) : Int :=
  if str_col_idx < 0 then str_col_idx + len else str_col_idx

/-- The per-cell conversion of `file_to_dict` lines 303-309:
`int(float(cell))` with only `ValueError` caught, so an infinity
propagates as `OverflowError`; the string column keeps the text. -/
def coerceCell (s : String) : Except PyExn Cell :=
  match pyIntFloat s with
  | Except.ok n => Except.ok (Cell.int n)
  | Except.error PyNumErr.valueErr => Except.ok (Cell.str s)
  | Except.error PyNumErr.overflowErr => Except.error PyExn.overflowError

/-- The inner row loop of `file_to_dict` for column `i`: rows shorter
than the column index are skipped, the string column keeps the text,
every other column goes through `coerceCell`. -/
def colVals (adj : Int) (i : Nat) : List (List String) → Except PyExn (List Cell)
  | [] => Except.ok []
  | row :: rest =>
    match row[i]? with
    | none => colVals adj i rest
    | some c =>
      match (if (i : Int) = adj then Except.ok (Cell.str c) else coerceCell c) with
      | Except.error e => Except.error e
      | Except.ok v =>
        match colVals adj i rest with
        | Except.error e => Except.error e
        | Except.ok vs => Except.ok (v :: vs)

/-- The outer column loop of `file_to_dict` over `enumerate(header)`. -/
def buildDict (adj : Int) (dataRows : List (List String)) :
    List (Nat × String) → List (String × List Cell) →
    Except PyExn (List (String × List Cell))
  | [], d => Except.ok d
  | (i, head) :: rest, d =>
    match colVals adj i dataRows with
    | Except.error e => Except.error e
    | Except.ok vs => buildDict adj dataRows rest (dictSet d head vs)

/-- `file_to_dict` from `src/main.py` lines 281-313. -/
def file_to_dict (tsv cell_delimiter : String) (str_col_idx : Int) :
    Except PyExn (List (String × List Cell)) :=
  match parsedRows tsv cell_delimiter with
  | [] => Except.ok []
  | [_] => Except.ok []
  | header :: dataRows =>
    buildDict (strColAdjust str_col_idx header.length)
      (padLastRow header.length dataRows) header.enum []

/-- The value stored for a surviving cell of column `i` (used to state
the coercion property; matches `coerceCell` away from infinities). -/
def cellVal (adj : Int) (i : Nat) (c : String) : Cell :=
  if (i : Int) = adj then Cell.str c
  else
    match pyIntFloat c with
    | Except.ok n => Cell.int n
    | Except.error _ => Cell.str c

/-! ## Orientation/script parsing (`is_valid` and `osd_to_dict`,
`src/main.py` lines 315-333) -/

/-- The Python type tags used as values in `OSD_KEYS`. -/
inductive PyType where
  | i : PyType
  | f : PyType
  | s : PyType
deriving DecidableEq, Repr

/-- Modelled from the spec: `OSD_KEYS` is referenced by `osd_to_dict`
but not defined under `src/`.  The spec describes "a fixed whitelist of
recognized keys, each mapped to a target field name and a target
numeric/string type" and names `Orientation in degrees -> orientation`
(integer) and `Script -> script` (string); the confidence fields carry
the float type the spec's validation rule mentions. -/
def OSD_KEYS : List (String × String × PyType) :=
  [("Page number", ("page_num", PyType.i)),
   ("Orientation in degrees", ("orientation", PyType.i)),
   ("Rotate", ("rotate", PyType.i)),
   ("Orientation confidence", ("orientation_conf", PyType.f)),
   ("Script", ("script", PyType.s)),
   ("Script confidence", ("script_conf", PyType.f))]

/-- Python `OSD_KEYS[k]` as a partial lookup (`none` = `KeyError`). -/
def osdLookup (k : String) : Option (String × PyType) :=
  (OSD_KEYS.find? (fun p => p.1 == k)).map (fun p => p.2)

/-- Python `str.isdigit()` restricted to ASCII digits. -/
def pyIsdigit (s : String) : Bool :=
  !s.toList.isEmpty && s.toList.all isDigitChar

/-- `is_valid` from `src/main.py` line 315: integer fields must be all
digits, float fields must parse as a Python float, anything else is
accepted. -/
def is_valid (val : String) (t : PyType) : Bool :=
  match t with
  | PyType.i => pyIsdigit val
  | PyType.f => (pyFloatOfStr val).isSome
  | PyType.s => true

/-- A typed OSD dictionary value. -/
inductive OsdVal where
  | i (n : Int) : OsdVal
  | f (x : PyFloat) : OsdVal
  | s (v : String) : OsdVal
deriving DecidableEq, Repr

/-- The conversion `OSD_KEYS[kv[0]][1](kv[1])`; it is only reached on
values accepted by `is_valid`, so `int` sees a digit string and `float`
a parseable literal. -/
def osdConvert (t : PyType) (v : String) : OsdVal :=
  match t with
  | PyType.i => OsdVal.i (digitsVal v.toList : Nat)
  | PyType.f => OsdVal.f ((pyFloatOfStr v).getD PyFloat.nan)
  | PyType.s => OsdVal.s v

/-- One line of the `osd_to_dict` comprehension: `kv = line.split(': ')`;
a line with exactly two parts looks its key up in `OSD_KEYS` (raising
`KeyError` when absent, since the membership is never guarded), keeps it
when `is_valid` accepts the value and drops it otherwise; any other
split length is filtered out by `len(kv) == 2`. -/
def osdLine (d : List (String × OsdVal)) (line : String) :
    Except PyExn (List (String × OsdVal)) :=
  match pySplitOn line ": " with
  | [k, v] =>
    match osdLookup k with
    | none => Except.error PyExn.keyError
    | some (field, t) =>
      if is_valid v t then Except.ok (dictSet d field (osdConvert t v))
      else Except.ok d
  | _ => Except.ok d

/-- Worker iterating the comprehension of `osd_to_dict` over the lines. -/
def osdGo : List String → List (String × OsdVal) →
    Except PyExn (List (String × OsdVal))
  | [], d => Except.ok d
  | line :: rest, d =>
    match osdLine d line with
    | Except.error e => Except.error e
    | Except.ok d2 => osdGo rest d2

/-- `osd_to_dict` from `src/main.py` line 328. -/
def osd_to_dict (osd : String) : Except PyExn (List (String × OsdVal)) :=
  osdGo (pySplitOn osd "\n") []

/-! ## Temp-file cleanup (`cleanup` and `save`, `src/main.py` lines
103-110 and 136-147) -/

/-- Whether `iglob(f'{temp_name}*')` yields `f`: the empty pattern
matches nothing (the source passes `temp_name` itself, i.e. `''`, in
that case); otherwise `*` makes every file whose name starts with
`temp_name` match (glob metacharacters inside `temp_name` and path
separators in the suffix are not modelled; the temp names produced by
`NamedTemporaryFile(prefix='tess_')` contain neither). -/
def globMatch (temp_name f : String) : Bool :=
  !(temp_name == "") && temp_name.toList.isPrefixOf f.toList

/-- Whether removing `f` fails with an error that `cleanup` re-raises
(`rr f = some e` models `os.remove(f)` raising `OSError` with errno
`e`; `none` models success). -/
def remBad (rr : String → Option Nat) (f : String) : Bool :=
  match rr f with
  | none => false
  | some e => !(e == ENOENT)

/-- The loop of `cleanup`: walks the filesystem listing in order,
removes every glob match, swallows `ENOENT` failures, stops and
re-raises on any other errno.  Returns the propagated errno (if any)
and the files left on disk. -/
def cleanupGo (rr : String → Option Nat) (temp_name : String) :
    List String → Option Nat × List String
  | [] => (none, [])
  | f :: rest =>
    if globMatch temp_name f then
      match rr f with
      | none => cleanupGo rr temp_name rest
      | some e =>
        if e == ENOENT then cleanupGo rr temp_name rest
        else (some e, f :: rest)
    else
      let r := cleanupGo rr temp_name rest
      (r.1, f :: r.2)

/-- `cleanup` from `src/main.py` line 103 over an explicit filesystem
listing `fs`. -/
def cleanup (rr : String → Option Nat) (temp_name : String)
    (fs : List String) : Option Nat × List String :=
  cleanupGo rr temp_name fs

/-- Outcome of a `save` scope: the body's own failure, or an `OSError`
errno escaping `cleanup`. -/
inductive SaveErr where
  | body (e : PyExn) : SaveErr
  | osErr (errno : Nat) : SaveErr
deriving DecidableEq, Repr

/-- The `try`/`finally` of `save` (`src/main.py` line 136), embedded as
the scoped execution it performs around the `with` body (the generator
is used through the context-manager protocol): whatever the body does,
`cleanup(f.name)` runs afterwards over the files then on disk, and an
exception it raises supersedes the body's outcome. -/
def save_scope (rr : String → Option Nat) (base : String)
    (fs : List String) (body : Except PyExn Unit) :
    Except SaveErr Unit × List String :=
  let c := cleanup rr base fs
  (match c.1 with
   | some e => Except.error (SaveErr.osErr e)
   | none =>
     match body with
     | Except.error e => Except.error (SaveErr.body e)
     | Except.ok () => Except.ok (), c.2)

/-! ## Version query (`get_tesseract_version`, `src/main.py` lines
362-386) -/

/-- The character set `string.printable[10:]` that
`get_tesseract_version` left-strips: all printable ASCII except the
digits, i.e. letters, punctuation, space (ASCII 32-126 without 48-57)
plus the five whitespace controls tab, newline, vertical tab, form
feed, carriage return. -/
def isVerStrippable (c : Char) : Bool :=
  (32 ≤ c.toNat && c.toNat ≤ 126 && !(48 ≤ c.toNat && c.toNat ≤ 57)) ||
  c.toNat = 9 || c.toNat = 10 || c.toNat = 11 || c.toNat = 12 || c.toNat = 13

/-- First component of Python `str.partition(sep)` for a one-character
separator: everything before the first occurrence (the whole string
when absent). -/
def headBefore (c : Char) (l : List Char) : List Char :=
  l.takeWhile (fun x => !(x == c))

/-- The token `get_tesseract_version` feeds to the version parser:
`raw.lstrip(string.printable[10:]).partition(' ')[0].partition('-')[0]`. -/
def codeVersionToken (raw : String) : String :=
  String.mk (headBefore '-' (headBefore ' ' (raw.toList.dropWhile isVerStrippable)))

/-- Modelled from the spec: `packaging.version.parse` (imported as
`parse`, not defined under `src/`), restricted to plain dotted release
segments with optional surrounding whitespace; pre/post/dev/epoch/local
segments are not modelled.  `none` is `InvalidVersion`. -/
def pyVersionOfStr (s : String) : Option (List Nat) :=
  let parts := pySplitOn (pyStripStr s) "."
  if parts.all (fun p => pyIsdigit p) then
    some (parts.map (fun p => digitsVal p.toList))
  else none

/-- PEP 440 comparison of release tuples: the shorter one is padded
with zeros (a zero-padded empty left side is always below). -/
def versionLeB : List Nat → List Nat → Bool
  | [], _ => true
  | x :: xs, [] => (x == 0) && versionLeB xs []
  | x :: xs, y :: ys =>
    if x < y then true else if y < x then false else versionLeB xs ys

/-- Modelled from the spec: `TESSERACT_MIN_VERSION` is referenced but
not defined under `src/`; the source's own `TSVNotSupported` message
says "Tesseract >= 3.05 required", and `packaging` parses `3.05` as
release `(3, 5)`. -/
def TESSERACT_MIN_VERSION : List Nat := [3, 5]

/-- Outcome of `get_tesseract_version`: `notFound` embeds
`TesseractNotFoundError`, `fatal` the process-terminating
`SystemExit(f'Invalid tesseract version: ...')`, `ok v` a returned
version. -/
inductive VersionOutcome where
  | notFound : VersionOutcome
  | fatal : VersionOutcome
  | ok (v : List Nat) : VersionOutcome
deriving DecidableEq, Repr

/-- `get_tesseract_version` from `src/main.py` lines 362-386, over the
outcome of the `--version` subprocess (`Except.error` = `OSError` from
`check_output`, `Except.ok raw` = decoded output). -/
def get_tesseract_version (spawn : Except Unit String) : VersionOutcome :=
  match spawn with
  | Except.error _ => VersionOutcome.notFound
  | Except.ok raw =>
    match pyVersionOfStr (codeVersionToken raw) with
    | none => VersionOutcome.fatal
    | some v =>
      if versionLeB TESSERACT_MIN_VERSION v then VersionOutcome.ok v
      else VersionOutcome.fatal

/-- Modelled from the spec: the claim's own description of the version
token, "parsing the first whitespace-delimited token off the first
line (after stripping leading control characters)". -/
def specVersionToken (raw : String) : String :=
  let firstLine := (pySplitOn raw "\n").headD ""
  let stripped := firstLine.toList.dropWhile (fun c => c.toNat < 32)
  String.mk ((stripped.dropWhile isPySpace).takeWhile (fun c => !isPySpace c))

/-! ## CLI entry point (`main`, `src/main.py` lines 544-561) -/

/-- The errors `main` catches around `Image.open` + `image_to_string`:
`TesseractNotFoundError` and any other `OSError` (carrying the type
name and message it prints). -/
inductive MainBodyErr where
  | notFoundErr : MainBodyErr
  | osErr (name msg : String) : MainBodyErr
deriving DecidableEq, Repr

/-- Observable result of `main`: lines printed to stdout, lines printed
to stderr, and the function's return value (`none` = falling off the
end, i.e. Python `None`). -/
structure MainResult where
  stdoutLines : List String
  stderrLines : List String
  retval : Option Int
deriving DecidableEq, Repr

/-- The usage message of `main` (`src/main.py` line 550). -/
def usageMsg : String := "Usage: pytesseract [-l lang] input_file\n"

/-- The message of `TesseractNotFoundError` (`src/main.py` line 50)
with the default `tesseract_cmd`. -/
def tessNotFoundMsg : String :=
  "tesseract is not installed or it's not in your PATH." ++
  " See README file for more information."

/-- `main` from `src/main.py` lines 544-561.  `body filename lang`
abstracts `Image.open(filename)` followed by
`image_to_string(img, lang=lang)`. -/
def pymain (argv : List String)
    (body : String → Option String → Except MainBodyErr String) : MainResult :=
  let run := fun (filename : String) (lang : Option String) =>
    match body filename lang with
    | Except.ok text => MainResult.mk [text] [] none
    | Except.error MainBodyErr.notFoundErr =>
      MainResult.mk [] [tessNotFoundMsg ++ "\n"] (some 1)
    | Except.error (MainBodyErr.osErr name msg) =>
      MainResult.mk [] [name ++ ": " ++ msg] (some 1)
  match argv with
  | [_, filename] => run filename none
  | [_, flag, lang, filename] =>
    if flag == "-l" then run filename (some lang)
    else MainResult.mk [] [usageMsg] (some 2)
  | _ => MainResult.mk [] [usageMsg] (some 2)

/-- Modelled from the spec: the exit status the interpreter derives
from `sys.exit(main())` — `None` exits with status 0, an integer with
itself (the `if __name__ == '__main__'` guard is absent from this copy
of the source; the spec's CLI surface fixes the mapping). -/
def sysExitCode : Option Int → Int
  | none => 0
  | some n => n

/-! ## Helper lemmas -/

/-- The extension loop of `run_tesseract` is an append of the filtered
token list. -/
theorem foldl_skip_filter (excl : List String) (l init : List String) :
    l.foldl (fun acc e => if excl.contains e then acc else acc ++ [e]) init
      = init ++ l.filter (fun e => !(excl.contains e)) := by
  induction l generalizing init with
  | nil => simp
  | cons x xs ih =>
    simp only [List.foldl_cons, List.filter_cons]
    rw [ih]
    cases hx : excl.contains x
    · simp [hx, List.append_assoc]
    · simp [hx]

/-- `padLastRow` touches exactly the final row. -/
theorem padLastRow_append (len : Nat) (pre : List (List String))
    (r : List String) :
    padLastRow len (pre ++ [r]) =
      pre ++ [if r.length < len then r ++ [""] else r] := by
  induction pre with
  | nil =>
    simp only [List.nil_append, padLastRow]
    split <;> rfl
  | cons p ps ih =>
    cases ps with
    | nil => simpa [padLastRow] using ih
    | cons q qs => simpa [padLastRow] using ih

/-- Away from infinities, the row loop of `file_to_dict` stores exactly
the coerced cells, skipping rows too short for the column. -/
theorem colVals_char (adj : Int) (i : Nat) (rows : List (List String))
    (h : ∀ row ∈ rows, (i : Int) ≠ adj → ∀ c ∈ row,
      pyIntFloat c ≠ Except.error PyNumErr.overflowErr) :
    colVals adj i rows =
      Except.ok (rows.filterMap fun row => (row[i]?).map (cellVal adj i)) := by
  induction rows with
  | nil => simp [colVals]
  | cons row rest ih =>
    have hrest : ∀ r ∈ rest, (i : Int) ≠ adj → ∀ c ∈ r,
        pyIntFloat c ≠ Except.error PyNumErr.overflowErr :=
      fun r hr => h r (List.mem_cons_of_mem row hr)
    simp only [colVals, List.filterMap_cons]
    cases hc : row[i]? with
    | none => simpa using ih hrest
    | some c =>
      by_cases hi : (i : Int) = adj
      · simp [hi, cellVal, ih hrest]
      · have hnov := h row (List.mem_cons_self row rest) hi c (List.getElem?_mem hc)
        simp only [if_neg hi, coerceCell]
        cases hpc : pyIntFloat c with
        | ok n => simp [cellVal, if_neg hi, hpc, ih hrest]
        | error e =>
          cases e with
          | valueErr => simp [cellVal, if_neg hi, hpc, ih hrest]
          | overflowErr => exact absurd hpc hnov

/-- Away from infinities, the column loop of `file_to_dict` succeeds. -/
theorem buildDict_ok (adj : Int) (dataRows : List (List String))
    (h : ∀ row ∈ dataRows, ∀ c ∈ row,
      pyIntFloat c ≠ Except.error PyNumErr.overflowErr) :
    ∀ (cols : List (Nat × String)) (d : List (String × List Cell)),
      ∃ d2, buildDict adj dataRows cols d = Except.ok d2 := by
  intro cols
  induction cols with
  | nil => exact fun d => ⟨d, rfl⟩
  | cons col rest ih =>
    intro d
    obtain ⟨i, head⟩ := col
    have hcol : colVals adj i dataRows =
        Except.ok (dataRows.filterMap fun row => (row[i]?).map (cellVal adj i)) :=
      colVals_char adj i dataRows
        (fun row hr _ c hc => h row hr c hc)
    simp only [buildDict, hcol]
    exact ih (dictSet d head _)

/-- The errno propagated by `cleanup` is exactly the removal error of
the first glob-matched file whose removal fails with a non-`ENOENT`
error. -/
theorem cleanupGo_err_char (rr : String → Option Nat) (base : String)
    (fs : List String) :
    (cleanupGo rr base fs).1 =
      (fs.find? (fun f => globMatch base f && remBad rr f)).bind rr := by
  induction fs with
  | nil => simp [cleanupGo]
  | cons f rest ih =>
    simp only [cleanupGo]
    cases hg : globMatch base f with
    | false => simp [List.find?_cons, hg, ih]
    | true =>
      cases hr : rr f with
      | none => simp [List.find?_cons, hg, remBad, hr, ih]
      | some e =>
        cases he : e == ENOENT with
        | false => simp [List.find?_cons, hg, remBad, hr, he]
        | true => simp [List.find?_cons, hg, remBad, hr, he, ih]

/-- When `cleanup` raises nothing, no glob-matched file survives. -/
theorem cleanupGo_none_clean (rr : String → Option Nat) (base : String)
    (fs : List String) (h : (cleanupGo rr base fs).1 = none) :
    ((cleanupGo rr base fs).2.all (fun f => !globMatch base f)) = true := by
  induction fs with
  | nil => simp [cleanupGo]
  | cons f rest ih =>
    cases hg : globMatch base f with
    | false =>
      simp [cleanupGo, hg] at h ⊢
      simpa using ih h
    | true =>
      cases hr : rr f with
      | none =>
        simp [cleanupGo, hg, hr] at h ⊢
        simpa using ih h
      | some e =>
        cases he : e == ENOENT with
        | true =>
          simp [cleanupGo, hg, hr, he] at h ⊢
          simpa using ih h
        | false => simp [cleanupGo, hg, hr, he] at h

/-! ## Claim theorems -/

/-- C1: when the spawn of the engine fails with `ENOENT`,
`run_tesseract` raises `TesseractNotFoundError`; any other spawn-time
OS error propagates unchanged; and when the process exits with a
nonzero code within the (possibly absent) deadline, it raises
`TesseractError` carrying that exit code and the stderr text with
lines joined by single spaces and surrounding whitespace trimmed. -/
theorem run_tesseract_error_routing (errno : Nat) (b : ProcBehavior)
    (timeout : Nat) (hne : errno ≠ ENOENT) (hrc : b.exitCode ≠ 0)
    (hdone : timeout = 0 ∨ b.exitTime ≤ timeout) :
    (run_tesseract_outcome (Except.error ENOENT) timeout).1 =
      Except.error TessErr.notFound
    ∧ (run_tesseract_outcome (Except.error errno) timeout).1 =
      Except.error (TessErr.osError errno)
    ∧ (run_tesseract_outcome (Except.ok b) timeout).1 =
      Except.error (TessErr.tessError b.exitCode
        (pyStripStr (String.intercalate " " (pySplitlines b.stderrText)))) := by
  refine ⟨by simp [run_tesseract_outcome], by simp [run_tesseract_outcome, hne], ?_⟩
  have hge : get_errors b.stderrText =
      pyStripStr (String.intercalate " " (pySplitlines b.stderrText)) := rfl
  rcases hdone with h0 | hle
  · subst h0
    simp [run_tesseract_outcome, timeout_manager, hrc, hge]
  · by_cases ht : timeout = 0
    · subst ht
      simp [run_tesseract_outcome, timeout_manager, hrc, hge]
    · simp [run_tesseract_outcome, timeout_manager, ht, hle, hrc, hge]

/-- Witness for `run_tesseract_error_routing` at errno 13 (`EACCES`),
exit code 1, stderr `" Err\nmore "` and no deadline. -/
theorem run_tesseract_error_routing_witness :
    ((13 : Nat) ≠ ENOENT) ∧ ((1 : Int) ≠ 0) ∧ ((0 : Nat) = 0 ∨ (1 : Nat) ≤ 0)
    ∧ ((run_tesseract_outcome (Except.error ENOENT) 0).1 =
        Except.error TessErr.notFound
      ∧ (run_tesseract_outcome (Except.error 13) 0).1 =
        Except.error (TessErr.osError 13)
      ∧ (run_tesseract_outcome (Except.ok ⟨1, 1, " Err\nmore "⟩) 0).1 =
        Except.error (TessErr.tessError 1
          (pyStripStr (String.intercalate " " (pySplitlines " Err\nmore "))))) :=
  ⟨by decide, by decide, Or.inl rfl,
    run_tesseract_error_routing 13 ⟨1, 1, " Err\nmore "⟩ 0
      (by decide) (by decide) (Or.inl rfl)⟩

/-- C2: for every positive timeout, a process that has not exited
within it is terminated, waited on, force-killed, its exit code is
overridden to the sentinel `-1`, and the distinct `Timeout` error — not
the nonzero-exit error, and never a silent success — is raised. -/
theorem run_tesseract_timeout_kill (b : ProcBehavior) (timeout : Nat)
    (hpos : 0 < timeout) (hlate : timeout < b.exitTime) :
    (run_tesseract_outcome (Except.ok b) timeout).1 = Except.error TessErr.timeout
    ∧ (run_tesseract_outcome (Except.ok b) timeout).1 ≠ Except.ok ()
    ∧ (∀ (rc : Int) (msg : String),
        (TessErr.timeout : TessErr) ≠ TessErr.tessError rc msg)
    ∧ (run_tesseract_outcome (Except.ok b) timeout).2 =
      some { returncode := some (-1), terminated := true, waited := true,
             killed := true, streamsClosed := true } := by
  have ht : ¬ timeout = 0 := by omega
  have hle : ¬ b.exitTime ≤ timeout := by omega
  refine ⟨?_, ?_, ?_, ?_⟩
  · simp [run_tesseract_outcome, timeout_manager, ht, hle]
  · simp [run_tesseract_outcome, timeout_manager, ht, hle]
  · intro rc msg hcontra
    cases hcontra
  · simp [run_tesseract_outcome, timeout_manager, ht, hle, kill]

/-- Witness for `run_tesseract_timeout_kill`: a process exiting at
5 seconds under a 1-second deadline. -/
theorem run_tesseract_timeout_kill_witness :
    ((0 : Nat) < 1) ∧ ((1 : Nat) < 5)
    ∧ ((run_tesseract_outcome (Except.ok ⟨5, 0, ""⟩) 1).1 =
        Except.error TessErr.timeout
      ∧ (run_tesseract_outcome (Except.ok ⟨5, 0, ""⟩) 1).1 ≠ Except.ok ()
      ∧ (∀ (rc : Int) (msg : String),
          (TessErr.timeout : TessErr) ≠ TessErr.tessError rc msg)
      ∧ (run_tesseract_outcome (Except.ok ⟨5, 0, ""⟩) 1).2 =
        some { returncode := some (-1), terminated := true, waited := true,
               killed := true, streamsClosed := true }) :=
  ⟨by decide, by decide,
    run_tesseract_timeout_kill ⟨5, 0, ""⟩ 1 (by decide) (by decide)⟩

/-- C3: the argument vector built by `run_tesseract` is exactly, in
order: the optional `nice` prefix (non-Windows with nonzero niceness
only), the engine binary name, the input path, the output base, the
optional `-l <lang>` pair, the tokenized extra config flags, and the
requested extension tokens excluding `{box, osd, tsv, xml}`; being a
function of its inputs, the construction is deterministic. -/
theorem run_tesseract_cmd_layout (shlexSplit : String → Bool → List String)
    (isWindows : Bool) (input_filename output_filename_base extension : String)
    (lang : Option String) (config : String) (nice : Int) :
    build_cmd_args shlexSplit isWindows input_filename output_filename_base
        extension lang config nice =
      (if isWindows = false ∧ nice ≠ 0 then ["nice", "-n", toString nice] else [])
      ++ [tesseract_cmd, input_filename, output_filename_base]
      ++ (match lang with | some l => ["-l", l] | none => [])
      ++ (if config = "" then [] else shlexSplit config (!isWindows))
      ++ (pySplitWs extension).filter
          (fun e => !(["box", "osd", "tsv", "xml"].contains e)) := by
  unfold build_cmd_args
  rw [foldl_skip_filter]
  cases isWindows <;> cases lang <;>
    by_cases hn : nice = 0 <;> by_cases hc : config = "" <;>
      simp [hn, hc, List.append_assoc]

/-- C4 counterexample: a table whose final data row is one cell short
of the header, on which `file_to_dict` nevertheless raises — the padded
cell `"inf"` is coerced by `int(float(...))`, whose `OverflowError` is
not caught (`except ValueError` only). -/
theorem file_to_dict_pad_raises_on_inf :
    file_to_dict "a b\ninf" " " 1 = Except.error PyExn.overflowError := rfl

/-- C4 (amended): for every table whose final data row has fewer cells
than the header, `file_to_dict` appends exactly one empty cell to that
final row; and it does not raise provided no coerced cell parses as an
infinite float. -/
theorem file_to_dict_last_row_pad (tsv delim : String) (idx : Int)
    (header lastRow : List String) (pre : List (List String))
    (hmatch : parsedRows tsv delim = header :: (pre ++ [lastRow]))
    (hshort : lastRow.length < header.length)
    (hnoinf : ∀ row ∈ padLastRow header.length (pre ++ [lastRow]),
      ∀ c ∈ row, pyIntFloat c ≠ Except.error PyNumErr.overflowErr) :
    padLastRow header.length (pre ++ [lastRow]) = pre ++ [lastRow ++ [""]]
    ∧ ∃ d, file_to_dict tsv delim idx = Except.ok d := by
  constructor
  · rw [padLastRow_append]
    simp [hshort]
  · unfold file_to_dict
    rw [hmatch]
    cases pre with
    | nil =>
      exact buildDict_ok (strColAdjust idx header.length)
        (padLastRow header.length ([] ++ [lastRow])) hnoinf header.enum []
    | cons p ps =>
      exact buildDict_ok (strColAdjust idx header.length)
        (padLastRow header.length (p :: ps ++ [lastRow])) hnoinf header.enum []

/-- Witness for `file_to_dict_last_row_pad` on the two-column table
`"a b"` over the single short row `["1"]`, string column `-1`. -/
theorem file_to_dict_last_row_pad_witness :
    (parsedRows "a b\n1" " " = ["a", "b"] :: ([] ++ [["1"]]))
    ∧ ((["1"] : List String).length < (["a", "b"] : List String).length)
    ∧ (∀ row ∈ padLastRow 2 ([] ++ [["1"]]),
        ∀ c ∈ row, pyIntFloat c ≠ Except.error PyNumErr.overflowErr)
    ∧ (padLastRow 2 ([] ++ [["1"]]) = [] ++ [["1"] ++ [""]]
      ∧ ∃ d, file_to_dict "a b\n1" " " (-1) = Except.ok d) :=
  ⟨rfl, by decide, by decide,
    file_to_dict_last_row_pad "a b\n1" " " (-1) ["a", "b"] ["1"] []
      rfl (by decide) (by decide)⟩

/-- C5 counterexample: a cell `"inf"` in a non-string column makes
`file_to_dict` raise (`int(float('inf'))` raises `OverflowError`,
which the `except ValueError` does not catch), refuting "the coercion
step never raises". -/
theorem file_to_dict_coercion_raises_on_inf :
    file_to_dict "a b\ninf x" " " 1 = Except.error PyExn.overflowError := rfl

/-- C5 (amended): away from infinite cells, every column other than
the string column stores the float-then-truncate coercion of each cell
(the original text when the conversion fails with a value error), rows
too short for a column are skipped for that column only, and the
negative string-column index `-1` on a 6-column header resolves
to 5. -/
theorem file_to_dict_cell_coercion (adj : Int) (i : Nat)
    (rows : List (List String))
    (h : ∀ row ∈ rows, (i : Int) ≠ adj → ∀ c ∈ row,
      pyIntFloat c ≠ Except.error PyNumErr.overflowErr) :
    colVals adj i rows =
      Except.ok (rows.filterMap fun row => (row[i]?).map (cellVal adj i))
    ∧ strColAdjust (-1) 6 = 5 :=
  ⟨colVals_char adj i rows h, rfl⟩

/-- Witness for `file_to_dict_cell_coercion` on two ragged rows: the
first stores `int(float("7")) = 7`, the second is skipped for
column 0's neighbour column. -/
theorem file_to_dict_cell_coercion_witness :
    (∀ row ∈ [["7", "x"], ["y"]], ((1 : Nat) : Int) ≠ 0 → ∀ c ∈ row,
      pyIntFloat c ≠ Except.error PyNumErr.overflowErr)
    ∧ (colVals 0 1 [["7", "x"], ["y"]] =
        Except.ok ([["7", "x"], ["y"]].filterMap fun row =>
          (row[1]?).map (cellVal 0 1))
      ∧ strColAdjust (-1) 6 = 5) :=
  ⟨by decide, file_to_dict_cell_coercion 0 1 [["7", "x"], ["y"]] (by decide)⟩

/-- C10: an input that strips and splits into fewer than two rows
(header-only, empty or blank) makes `file_to_dict` return the empty
mapping, with no column names at all. -/
theorem file_to_dict_short_input (tsv delim : String) (idx : Int)
    (h : (pySplitOn (pyStripStr tsv) "\n").length < 2) :
    file_to_dict tsv delim idx = Except.ok [] := by
  have hlen : (parsedRows tsv delim).length < 2 := by
    simpa [parsedRows] using h
  unfold file_to_dict
  cases hp : parsedRows tsv delim with
  | nil => rfl
  | cons a t =>
    cases t with
    | nil => rfl
    | cons b l =>
      rw [hp] at hlen
      simp only [List.length_cons] at hlen
      omega

/-- Witness for `file_to_dict_short_input` on the header-only input
`"h1\th2"`. -/
theorem file_to_dict_short_input_witness :
    ((pySplitOn (pyStripStr "h1\th2") "\n").length < 2)
    ∧ file_to_dict "h1\th2" "\t" (-1) = Except.ok [] :=
  ⟨by decide, file_to_dict_short_input "h1\th2" "\t" (-1) (by decide)⟩

/-- C6 counterexample: a `key: value` line with an unrecognized key is
not discarded — `OSD_KEYS[kv[0]]` is evaluated inside the filter with
no membership guard, so the comprehension raises `KeyError`. -/
theorem osd_to_dict_unknown_key_raises :
    osd_to_dict "Foo: bar" = Except.error PyExn.keyError := rfl

/-- C6 (amended): `osd_to_dict` keeps whitelisted `key: value` lines,
mapping each key to its target field and converting the value to the
declared type; it discards without raising lines that do not split
into exactly two parts on `': '` and lines whose recognized key's
value fails validation; a two-part line whose key is not in the
whitelist raises a key error instead of being discarded.  The text
`"Orientation in degrees: 0\nScript: Latin\n"` parses to
`{orientation: 0, script: "Latin"}`. -/
theorem osd_to_dict_whitelist (d : List (String × OsdVal))
    (line k v field : String) (t : PyType) :
    osd_to_dict "Orientation in degrees: 0\nScript: Latin\n" =
      Except.ok [("orientation", OsdVal.i 0), ("script", OsdVal.s "Latin")]
    ∧ ((pySplitOn line ": ").length ≠ 2 → osdLine d line = Except.ok d)
    ∧ (pySplitOn line ": " = [k, v] → osdLookup k = some (field, t) →
        is_valid v t = true →
        osdLine d line = Except.ok (dictSet d field (osdConvert t v)))
    ∧ (pySplitOn line ": " = [k, v] → osdLookup k = some (field, t) →
        is_valid v t = false → osdLine d line = Except.ok d)
    ∧ (pySplitOn line ": " = [k, v] → osdLookup k = none →
        osdLine d line = Except.error PyExn.keyError) := by
  refine ⟨rfl, ?_, ?_, ?_, ?_⟩
  · intro hlen
    unfold osdLine
    cases hs : pySplitOn line ": " with
    | nil => rfl
    | cons a rest =>
      cases rest with
      | nil => rfl
      | cons b rest2 =>
        cases rest2 with
        | nil => rw [hs] at hlen; simp at hlen
        | cons c rest3 => rfl
  · intro hs hk hv
    simp [osdLine, hs, hk, hv]
  · intro hs hk hv
    simp [osdLine, hs, hk, hv]
  · intro hs hk
    simp [osdLine, hs, hk]

/-- Witness for `osd_to_dict_whitelist`: the unrecognized key `Foo`
raises on the line `"Foo: bar"`. -/
theorem osd_to_dict_whitelist_witness :
    (pySplitOn "Foo: bar" ": " = ["Foo", "bar"])
    ∧ (osdLookup "Foo" = none)
    ∧ osdLine [] "Foo: bar" = Except.error PyExn.keyError :=
  ⟨by decide, by decide,
    (osd_to_dict_whitelist [] "Foo: bar" "Foo" "bar" "" PyType.s).2.2.2.2
      (by decide) (by decide)⟩

/-- C7: the files left after a `save` scope do not depend on how the
body exited (success, error or early return); `cleanup` never raises
the not-found errno (`ENOENT` failures are tolerated); the errno it
does raise is exactly the first non-`ENOENT` removal failure among the
glob matches (other removal errors propagate); and when nothing is
raised, no file whose name starts with the base path survives. -/
theorem save_cleanup_every_path (rr : String → Option Nat)
    (fs : List String) (base : String) (body : Except PyExn Unit) :
    (save_scope rr base fs body).2 = (cleanup rr base fs).2
    ∧ (cleanup rr base fs).1 ≠ some ENOENT
    ∧ (cleanup rr base fs).1 =
      (fs.find? (fun f => globMatch base f && remBad rr f)).bind rr
    ∧ ((cleanup rr base fs).1 = none →
        ((cleanup rr base fs).2.all (fun f => !globMatch base f)) = true) := by
  refine ⟨rfl, ?_, cleanupGo_err_char rr base fs, cleanupGo_none_clean rr base fs⟩
  intro hen
  have hchar : (cleanup rr base fs).1 =
      (fs.find? (fun f => globMatch base f && remBad rr f)).bind rr :=
    cleanupGo_err_char rr base fs
  rw [hchar] at hen
  cases hf : fs.find? (fun f => globMatch base f && remBad rr f) with
  | none => rw [hf] at hen; cases hen
  | some f =>
    rw [hf] at hen
    have hpf := List.find?_some hf
    simp only [Bool.and_eq_true] at hpf
    have hbad := hpf.2
    simp only [Option.bind_eq_bind, Option.some_bind] at hen
    rw [remBad, hen] at hbad
    simp at hbad

/-- Witness for `save_cleanup_every_path`: base `"tess_1"` over three
files, removals succeeding; both prefixed files disappear on the error
exit path as well. -/
theorem save_cleanup_every_path_witness :
    ((cleanup (fun _ => none) "tess_1" ["tess_1", "tess_1.txt", "keep.txt"]).1 = none)
    ∧ ((cleanup (fun _ => none) "tess_1" ["tess_1", "tess_1.txt", "keep.txt"]).2.all
        (fun f => !globMatch "tess_1" f)) = true :=
  ⟨rfl,
    (save_cleanup_every_path (fun _ => none) ["tess_1", "tess_1.txt", "keep.txt"]
      "tess_1" (Except.error PyExn.keyError)).2.2.2 rfl⟩

/-- C8 counterexample: on the ordinary output `"tesseract 4.1.1\n"`
the claim's parse — the first whitespace-delimited token after
stripping leading control characters — is `"tesseract"`, which is not a
version (so the claim would make this output fatal), yet the code
succeeds with version 4.1.1: the source strips leading printable
non-digits, not control characters, and cuts at the first space and
hyphen. -/
theorem get_tesseract_version_token_mismatch :
    specVersionToken "tesseract 4.1.1\n" = "tesseract"
    ∧ pyVersionOfStr (specVersionToken "tesseract 4.1.1\n") = none
    ∧ get_tesseract_version (Except.ok "tesseract 4.1.1\n") =
      VersionOutcome.ok [4, 1, 1] :=
  ⟨rfl, rfl, rfl⟩

/-- C8 (amended): `get_tesseract_version` strips leading printable
non-digit characters (letters, punctuation and spaces — not control
characters), cuts the result at the first space and then at the first
hyphen, and parses that token as a version; an unparseable token or a
version below the 3.05 minimum is fatal (`SystemExit`, not a
recoverable error), while an absent binary raises
`TesseractNotFoundError`. -/
theorem get_tesseract_version_pipeline (raw : String) (v : List Nat)
    (hv : pyVersionOfStr (codeVersionToken raw) = some v) :
    get_tesseract_version (Except.error ()) = VersionOutcome.notFound
    ∧ (∀ raw2 : String, pyVersionOfStr (codeVersionToken raw2) = none →
        get_tesseract_version (Except.ok raw2) = VersionOutcome.fatal)
    ∧ (versionLeB TESSERACT_MIN_VERSION v = false →
        get_tesseract_version (Except.ok raw) = VersionOutcome.fatal)
    ∧ (versionLeB TESSERACT_MIN_VERSION v = true →
        get_tesseract_version (Except.ok raw) = VersionOutcome.ok v) := by
  refine ⟨rfl, ?_, ?_, ?_⟩
  · intro raw2 h2
    simp [get_tesseract_version, h2]
  · intro hlt
    simp [get_tesseract_version, hv, hlt]
  · intro hle
    simp [get_tesseract_version, hv, hle]

/-- Witness for `get_tesseract_version_pipeline` on the output
`"tesseract 3.05\n"`, exactly the minimum version. -/
theorem get_tesseract_version_pipeline_witness :
    (pyVersionOfStr (codeVersionToken "tesseract 3.05\n") = some [3, 5])
    ∧ (versionLeB TESSERACT_MIN_VERSION [3, 5] = true)
    ∧ get_tesseract_version (Except.ok "tesseract 3.05\n") =
      VersionOutcome.ok [3, 5] :=
  ⟨rfl, rfl,
    (get_tesseract_version_pipeline "tesseract 3.05\n" [3, 5] rfl).2.2.2 rfl⟩

/-- C9: `main` prints the recognized text to standard output and
returns `None` (exit status 0) on success, returns 1 when the engine
is missing or an OS-level error occurs opening the input, and returns
2 when the argument shape is not `prog [-l LANG] INPUT_FILE`. -/
theorem main_exit_codes (argv : List String) (prog f la t nm msg : String)
    (body : String → Option String → Except MainBodyErr String) :
    (body f none = Except.ok t →
      pymain [prog, f] body = MainResult.mk [t] [] none
      ∧ sysExitCode (pymain [prog, f] body).retval = 0)
    ∧ (body f (some la) = Except.ok t →
      pymain [prog, "-l", la, f] body = MainResult.mk [t] [] none)
    ∧ (body f none = Except.error MainBodyErr.notFoundErr →
      sysExitCode (pymain [prog, f] body).retval = 1
      ∧ (pymain [prog, f] body).stdoutLines = [])
    ∧ (body f none = Except.error (MainBodyErr.osErr nm msg) →
      sysExitCode (pymain [prog, f] body).retval = 1)
    ∧ (argv.length ≠ 2 → ¬(argv.length = 4 ∧ argv[1]? = some "-l") →
      sysExitCode (pymain argv body).retval = 2
      ∧ (pymain argv body).stderrLines = [usageMsg]) := by
  refine ⟨?_, ?_, ?_, ?_, ?_⟩
  · intro hb
    simp [pymain, hb, sysExitCode]
  · intro hb
    simp [pymain, hb]
  · intro hb
    simp [pymain, hb, sysExitCode]
  · intro hb
    simp [pymain, hb, sysExitCode]
  · intro h2 h4
    match argv with
    | [] => exact ⟨rfl, rfl⟩
    | [_] => exact ⟨rfl, rfl⟩
    | [_, _] => exact absurd rfl h2
    | [_, _, _] => exact ⟨rfl, rfl⟩
    | [a, flag, lng, fn] =>
      have hflag : ¬ flag = "-l" := fun hf => h4 ⟨rfl, by simp [hf]⟩
      simp [pymain, hflag, sysExitCode]
    | _ :: _ :: _ :: _ :: _ :: _ => exact ⟨rfl, rfl⟩

/-- Witness for `main_exit_codes`: a successful run over a stub body
printing `"hello"`, plus the three-argument usage error. -/
theorem main_exit_codes_witness :
    ((fun (_ : String) (_ : Option String) =>
        Except.ok (ε := MainBodyErr) "hello") "in.png" none = Except.ok "hello")
    ∧ ((3 : Nat) ≠ 2) ∧ (¬((3 : Nat) = 4 ∧ (["prog", "a", "b"] : List String)[1]? = some "-l"))
    ∧ (pymain ["prog", "in.png"]
        (fun _ _ => Except.ok "hello") = MainResult.mk ["hello"] [] none
      ∧ sysExitCode (pymain ["prog", "in.png"]
          (fun _ _ => Except.ok "hello")).retval = 0)
    ∧ (sysExitCode (pymain ["prog", "a", "b"]
          (fun _ _ => Except.ok "hello")).retval = 2
      ∧ (pymain ["prog", "a", "b"]
          (fun _ _ => Except.ok "hello")).stderrLines = [usageMsg]) :=
  ⟨rfl, by decide, by decide,
    (main_exit_codes ["prog", "a", "b"] "prog" "in.png" "eng" "hello" "" ""
      (fun _ _ => Except.ok "hello")).1 rfl,
    (main_exit_codes ["prog", "a", "b"] "prog" "in.png" "eng" "hello" "" ""
      (fun _ _ => Except.ok "hello")).2.2.2.2 (by decide) (by decide)⟩
